import Mathlib

/-!
Verification development for the task-dispatch core of `django_cloud_tasks`
(`base.py`, `connection.py`, `decorators.py`).

The Python code is shallowly embedded: Python values flowing through the
scheduling core are modelled by `PyVal`, raised exceptions by `PyErr`
(a kind plus the `args` tuple), and fallible code returns `Except PyErr`.
External side effects (calls on the Google Cloud Tasks client, logger
calls) are recorded in an explicit `Effect` trace, and results of opaque
external calls are supplied as oracle parameters, following the source's
treatment of the queue client as an opaque collaborator.
-/

set_option maxRecDepth 4096

/-- Kind of a raised Python exception, distinguishing the exception classes
that appear in the scheduling core. -/
inductive ErrKind where
  | keyError
  | typeError
  | attributeError
  | nameError
  | binasciiError
  | jsonDecodeError
  | valueError
  | exception
deriving DecidableEq, Repr

/-- A raised Python exception: its class kind together with its `args` tuple
(modelled as the list of string arguments). -/
structure PyErr where
  kind : ErrKind
  args : List String
deriving DecidableEq, Repr

/-- A Python value as it flows through the scheduling core: JSON scalars,
lists, string-keyed dicts (association lists, preserving insertion order as
Python dicts do), `bytes` objects (their content as a character string), and
the `tasks_v2.HttpMethod.POST` enum constant used in request bodies. -/
inductive PyVal where
  | vnull
  | vbool (b : Bool)
  | vint (n : Int)
  | vstr (s : String)
  | vbytes (s : String)
  | vhttpPost
  | vlist (xs : List PyVal)
  | vdict (kvs : List (String × PyVal))

/-- Python dict assignment `d[k] = v` for `PyVal` dicts: replaces the value at
an existing key in place, otherwise appends the new entry at the end. -/
def dictSetV : List (String × PyVal) → String → PyVal → List (String × PyVal)
  | [], k, v => [(k, v)]
  | kv :: rest, k, v => if kv.1 = k then (k, v) :: rest else kv :: dictSetV rest k v

/-- Python dict lookup for `PyVal` dicts, returning the value at the first
matching key. -/
def lookupV (k : String) : List (String × PyVal) → Option PyVal
  | [] => none
  | kv :: rest => if kv.1 = k then some kv.2 else lookupV k rest

/-- Python subscription `v[k]`: succeeds on a dict holding the key, raises
`KeyError(k)` on a dict without it, and `TypeError` on non-dicts. -/
def pyGet (v : PyVal) (k : String) : Except PyErr PyVal :=
  match v with
  | .vdict kvs =>
    match lookupV k kvs with
    | some x => Except.ok x
    | none => Except.error ⟨.keyError, [k]⟩
  | _ => Except.error ⟨.typeError, ["object is not subscriptable"]⟩

/-- In-place update of a dict entry through a function, used to model the
nested mutation `body[k] = f(body[k])`; leaves non-dicts and missing keys
unchanged. -/
def pyUpdate (v : PyVal) (k : String) (f : PyVal → PyVal) : PyVal :=
  match v with
  | .vdict kvs => .vdict (kvs.map fun kv => if kv.1 = k then (kv.1, f kv.2) else kv)
  | x => x

/-- Python dict assignment on a `PyVal` that is a dict, used to model
`d[k] = v` when `d` is known to be a dict; leaves non-dicts unchanged. -/
def pySetV (v : PyVal) (k : String) (x : PyVal) : PyVal :=
  match v with
  | .vdict kvs => .vdict (dictSetV kvs k x)
  | y => y

/-- JSON string escaping as performed by `json.dumps` on the plain ASCII
strings occurring in task payloads (backslash and quote escaped). -/
def jsonEscapeChar (c : Char) : String :=
  if c = '\\' then "\\\\"
  else if c = '"' then "\\\""
  else String.singleton c

/-- A JSON string literal as produced by `json.dumps`. -/
def jsonQuote (s : String) : String :=
  "\"" ++ String.join (s.toList.map jsonEscapeChar) ++ "\""

/-- Fuel-indexed model of `json.dumps` with the source's `ComplexEncoder`
fallback behaviour on the value kinds reachable in the scheduling core:
scalars, lists and dicts serialise (Python's default separators, so items are
joined with a comma-space and keys with a colon-space); `bytes` and enum
values raise `TypeError` from the encoder's `default`. The fuel bounds the
nesting depth, mirroring Python's recursion limit. -/
def jsonDumpsF : Nat → PyVal → Except PyErr String
  | 0, _ => Except.error ⟨.exception, ["maximum recursion depth exceeded"]⟩
  | _ + 1, .vnull => Except.ok "null"
  | _ + 1, .vbool b => Except.ok (if b then "true" else "false")
  | _ + 1, .vint n => Except.ok (toString n)
  | _ + 1, .vstr s => Except.ok (jsonQuote s)
  | _ + 1, .vbytes _ => Except.error ⟨.typeError, ["Object of type bytes is not JSON serializable"]⟩
  | _ + 1, .vhttpPost => Except.error ⟨.typeError, ["Object of type HttpMethod is not JSON serializable"]⟩
  | n + 1, .vlist xs => do
    let parts ← xs.mapM (jsonDumpsF n)
    Except.ok ("[" ++ String.intercalate ", " parts ++ "]")
  | n + 1, .vdict kvs => do
    let parts ← kvs.mapM fun kv => do
      let s ← jsonDumpsF n kv.2
      Except.ok (jsonQuote kv.1 ++ ": " ++ s)
    Except.ok ("\x7b" ++ String.intercalate ", " parts ++ "\x7d")

/-- Model of `json.dumps` on task payload values; the fuel is CPython's
default recursion limit, past which `json.dumps` raises `RecursionError`. -/
def jsonDumps (v : PyVal) : Except PyErr String :=
  jsonDumpsF 1000 v

/-- Value of a character in the standard base64 alphabet, `none` for
characters outside it. -/
def b64CharVal (c : Char) : Option Nat :=
  if 'A' ≤ c ∧ c ≤ 'Z' then some (c.toNat - 65)
  else if 'a' ≤ c ∧ c ≤ 'z' then some (c.toNat - 97 + 26)
  else if '0' ≤ c ∧ c ≤ '9' then some (c.toNat - 48 + 52)
  else if c = '+' then some 62
  else if c = '/' then some 63
  else none

/-- Decode base64 quadruples into byte values; the data length must be a
multiple of four, with `=` padding only at the very end, as `binascii`
requires after discarding foreign characters. -/
def b64Groups : List Char → Option (List Nat)
  | [] => some []
  | a :: b :: c :: d :: rest =>
    match b64CharVal a, b64CharVal b with
    | some va, some vb =>
      if c = '=' then
        if d = '=' ∧ rest = [] then some [va * 4 + vb / 16] else none
      else
        match b64CharVal c with
        | some vc =>
          if d = '=' then
            if rest = [] then some [va * 4 + vb / 16, vb % 16 * 16 + vc / 4] else none
          else
            match b64CharVal d with
            | some vd =>
              (b64Groups rest).map fun bs =>
                (va * 4 + vb / 16) :: (vb % 16 * 16 + vc / 4) :: (vc % 4 * 64 + vd) :: bs
            | none => none
        | none => none
    | _, _ => none
  | _ => none

/-- Model of Python's `base64.b64decode` with its default lenient validation:
characters outside the alphabet are discarded before decoding, and the
remaining data must form complete padded quadruples, else `binascii.Error`
(modelled as `none`). The decoded bytes are returned as a character string. -/
def b64decode (s : String) : Option String :=
  let kept := s.toList.filter fun c => (b64CharVal c).isSome || c = '='
  (b64Groups kept).map fun bs => String.mk (bs.map Char.ofNat)

/-- Skip JSON whitespace. -/
def skipWs : List Char → List Char
  | c :: rest =>
    if c = ' ' || c = '\t' || c = '\n' || c = '\r' then skipWs rest else c :: rest
  | [] => []

/-- Unescape one character following a backslash in a JSON string literal
(the escapes produced by the serialiser side). -/
def jsonUnescape (c : Char) : Option Char :=
  if c = '"' then some '"'
  else if c = '\\' then some '\\'
  else if c = '/' then some '/'
  else if c = 'n' then some '\n'
  else if c = 't' then some '\t'
  else if c = 'r' then some '\r'
  else none

/-- Parse the remainder of a JSON string literal after its opening quote. -/
def parseStrLit : List Char → Option (String × List Char)
  | [] => none
  | '"' :: rest => some ("", rest)
  | '\\' :: e :: rest => do
    let u ← jsonUnescape e
    let p ← parseStrLit rest
    pure (String.singleton u ++ p.1, p.2)
  | '\\' :: [] => none
  | c :: rest => do
    let p ← parseStrLit rest
    pure (String.singleton c ++ p.1, p.2)

/-- Accumulate a run of decimal digits. -/
def digitsLoop : List Char → Nat → Nat × List Char
  | c :: rest, acc =>
    if c.isDigit then digitsLoop rest (acc * 10 + (c.toNat - 48)) else (acc, c :: rest)
  | [], acc => (acc, [])

mutual

/-- Fuel-indexed recursive-descent parser for the JSON subset produced by the
body construction (strings, integers, booleans, null, arrays, objects),
modelling `json.loads` on the data the emulated path can receive. -/
def parseVal : Nat → List Char → Option (PyVal × List Char)
  | 0, _ => none
  | n + 1, input =>
    match skipWs input with
    | [] => none
    | '"' :: rest => (parseStrLit rest).map fun p => (.vstr p.1, p.2)
    | 't' :: 'r' :: 'u' :: 'e' :: rest => some (.vbool true, rest)
    | 'f' :: 'a' :: 'l' :: 's' :: 'e' :: rest => some (.vbool false, rest)
    | 'n' :: 'u' :: 'l' :: 'l' :: rest => some (.vnull, rest)
    | '[' :: rest =>
      match skipWs rest with
      | ']' :: r2 => some (.vlist [], r2)
      | r => do
        let p ← parseVal n r
        let q ← parseListRest n p.2
        pure (.vlist (p.1 :: q.1), q.2)
    | '\x7b' :: rest =>
      match skipWs rest with
      | '\x7d' :: r2 => some (.vdict [], r2)
      | r => do
        let p ← parsePair n r
        let q ← parseObjRest n p.2
        pure (.vdict (p.1 :: q.1), q.2)
    | '-' :: c :: rest =>
      if c.isDigit then
        let dr := digitsLoop rest (c.toNat - 48)
        some (.vint (-(Int.ofNat dr.1)), dr.2)
      else none
    | c :: rest =>
      if c.isDigit then
        let dr := digitsLoop rest (c.toNat - 48)
        some (.vint (Int.ofNat dr.1), dr.2)
      else none

/-- Parse the remaining elements of a JSON array after one element. -/
def parseListRest : Nat → List Char → Option (List PyVal × List Char)
  | 0, _ => none
  | n + 1, input =>
    match skipWs input with
    | ']' :: r => some ([], r)
    | ',' :: r => do
      let p ← parseVal n r
      let q ← parseListRest n p.2
      pure (p.1 :: q.1, q.2)
    | _ => none

/-- Parse one `"key": value` member of a JSON object. -/
def parsePair : Nat → List Char → Option ((String × PyVal) × List Char)
  | 0, _ => none
  | n + 1, input =>
    match skipWs input with
    | '"' :: r => do
      let k ← parseStrLit r
      match skipWs k.2 with
      | ':' :: r3 => do
        let v ← parseVal n r3
        pure ((k.1, v.1), v.2)
      | _ => none
    | _ => none

/-- Parse the remaining members of a JSON object after one member. -/
def parseObjRest : Nat → List Char → Option (List (String × PyVal) × List Char)
  | 0, _ => none
  | n + 1, input =>
    match skipWs input with
    | '\x7d' :: r => some ([], r)
    | ',' :: r => do
      let p ← parsePair n r
      let q ← parseObjRest n p.2
      pure (p.1 :: q.1, q.2)
    | _ => none

end

/-- Model of `json.loads`: parse one JSON value and require only whitespace
to remain; malformed input (including empty input) is a decode error,
modelled as `none`. -/
def jsonLoads (s : String) : Option PyVal :=
  match parseVal (s.length + 1) s.toList with
  | some p => if skipWs p.2 = [] then some p.1 else none
  | none => none

/-- Modelled from the spec: the configuration surface consumed by the core
(`DCTConfig` in `apps.py`, which is not part of the sources) — the two global
flags, the handler secret, the service-account email for OIDC signing, and
project identifiers. -/
structure DCTSettings where
  executeLocally : Bool
  blockRemoteTasks : Bool
  handlerSecret : String
  serviceAccountEmail : String
  projectLocationName : String
  googleProjectId : String

/-- Modelled from the spec: the fixed worker-secret header name, imported in
the source from `constants.py` which is not part of the sources; the exact
value is immaterial to every property proved below. -/
def HANDLER_SECRET_HEADER_NAME : String := "HANDLER-SECRET"

/-- State of a `CloudTaskWrapper`: the bound task's internal name, the target
queue, the payload mapping (`_data`), the worker handler URL, the handler
secret captured at construction, the remoteness flag, and caller headers. -/
structure CloudTaskWrapper where
  internalTaskName : String
  queue : String
  data : Option PyVal
  taskHandlerUrl : String
  handlerSecret : String
  isRemote : Bool
  headers : List (String × String)

/-- Model of `CloudTaskWrapper.set_queue`. -/
def setQueue (w : CloudTaskWrapper) (q : String) : CloudTaskWrapper :=
  ⟨w.internalTaskName, q, w.data, w.taskHandlerUrl, w.handlerSecret, w.isRemote, w.headers⟩

/-- Header-key normalisation from `formatted_headers`:
`key.replace("_", "-").upper()`. Both steps act character by character —
`str.replace` with a one-character pattern and replacement is a character
substitution, and `str.upper()` upcases each character. -/
def normKey (k : String) : String :=
  String.mk ((k.toList.map fun c => if c = '_' then '-' else c).map Char.toUpper)

/-- Python dict assignment for string-valued dicts (caller header maps). -/
def dictSetS : List (String × String) → String → String → List (String × String)
  | [], k, v => [(k, v)]
  | kv :: rest, k, v => if kv.1 = k then (k, v) :: rest else kv :: dictSetS rest k v

/-- Python dict lookup for string-valued dicts. -/
def lookupS (k : String) : List (String × String) → Option String
  | [] => none
  | kv :: rest => if kv.1 = k then some kv.2 else lookupS k rest

/-- The loop of `formatted_headers`: fold the caller headers into a fresh
dict under normalised keys. -/
def formatLoop : List (String × String) → List (String × String) → List (String × String)
  | acc, [] => acc
  | acc, kv :: rest => formatLoop (dictSetS acc (normKey kv.1) kv.2) rest

/-- Model of `CloudTaskWrapper.formatted_headers`: normalise every caller
header key, then force-set the secret header to the wrapper's handler
secret. -/
def formattedHeaders (w : CloudTaskWrapper) : List (String × String) :=
  dictSetS (formatLoop [] w.headers) HANDLER_SECRET_HEADER_NAME w.handlerSecret

/-- Model of `CloudTaskWrapper.get_body`. Builds the nested request dict;
if the payload is a dict it is serialised by `json.dumps`, a
`Content-type: application/json` header is attached, and the serialised
string is encoded to bytes; a string payload is encoded to bytes directly;
any other payload raises `AttributeError` at `.encode()`. A non-`None`
`in_seconds` raises `NameError`, because `timestamp_pb2` is referenced but
never imported in the source module. Finally, `task_name` is added when
given and the function returns `body["task"]`, the inner task dict. -/
def getBody (cfg : DCTSettings) (w : CloudTaskWrapper) (payload : Option PyVal)
    (inSeconds : Option Nat) (taskName : Option String) : Except PyErr PyVal := do
  let baseHttp : List (String × PyVal) :=
    [("http_method", .vhttpPost),
     ("url", .vstr w.taskHandlerUrl),
     ("oidc_token", .vdict [("service_account_email", .vstr cfg.serviceAccountEmail)])]
  let http ← match payload with
    | none => Except.ok baseHttp
    | some p =>
      match p with
      | .vdict kvs => do
        let s ← jsonDumps (.vdict kvs)
        Except.ok (dictSetV
          (dictSetV baseHttp "headers" (.vdict [("Content-type", .vstr "application/json")]))
          "body" (.vbytes s))
      | .vstr s => Except.ok (dictSetV baseHttp "body" (.vbytes s))
      | _ => Except.error ⟨.attributeError, ["object has no attribute encode"]⟩
  match inSeconds with
  | some _ => Except.error ⟨.nameError, ["name timestamp_pb2 is not defined"]⟩
  | none =>
    let taskFields : List (String × PyVal) := [("http_request", .vdict http)]
    let taskFields2 :=
      match taskName with
      | none => taskFields
      | some n => dictSetV taskFields "name" (.vstr n)
    Except.ok (.vdict taskFields2)

/-- The inner task dict `get_body` returns when no payload, delay or name is
supplied — the body `execute_local` hands to `EmulatedTask`. -/
def defaultTaskBody (cfg : DCTSettings) (w : CloudTaskWrapper) : PyVal :=
  .vdict [("http_request", .vdict
    [("http_method", .vhttpPost),
     ("url", .vstr w.taskHandlerUrl),
     ("oidc_token", .vdict [("service_account_email", .vstr cfg.serviceAccountEmail)])])]

/-- Model of `EmulatedTask.setup` (run by its constructor): index
`body["task"]["http_request"]["body"]`, base64-decode it, JSON-decode the
result, and store the decoded payload back in place. -/
def emulatedSetup (body : PyVal) : Except PyErr PyVal := do
  let task ← pyGet body "task"
  let http ← pyGet task "http_request"
  let payload ← pyGet http "body"
  let s ← match payload with
    | .vbytes s => Except.ok s
    | .vstr s => Except.ok s
    | _ => Except.error ⟨.typeError, ["argument should be a bytes-like object or ASCII string"]⟩
  match b64decode s with
  | none => Except.error ⟨.binasciiError, ["Invalid base64-encoded data"]⟩
  | some bytes =>
    match jsonLoads bytes with
    | none => Except.error ⟨.jsonDecodeError, ["Expecting value"]⟩
    | some decoded =>
      Except.ok (pyUpdate body "task" fun t =>
        pyUpdate t "http_request" fun h => pySetV h "body" decoded)

/-- Model of `CloudTaskWrapper.execute_local`: construct the body with
`get_body()` (no payload, no delay, no name), run it through
`EmulatedTask`'s constructor, and deliver the emulated request to the
worker-side handler. The handler `views.run_task` is not part of the
sources and is supplied as an oracle; the properties below hold for every
oracle. -/
def executeLocal (runTask : PyVal → Except PyErr PyVal) (cfg : DCTSettings)
    (w : CloudTaskWrapper) : Except PyErr PyVal := do
  let b ← getBody cfg w none none none
  let b2 ← emulatedSetup b
  runTask b2

/-- The pair a successful `create_cloud_task` hands to the client: the fully
qualified parent queue path and the request body. -/
structure CreatedTask where
  parent : String
  body : PyVal

/-- Model of the client library's `queue_path` formatting. -/
def queuePath (project location queue : String) : String :=
  "projects/" ++ project ++ "/locations/" ++ location ++ "/queues/" ++ queue

/-- Model of `CloudTaskWrapper.create_cloud_task`: build the payload with
`get_body()` and aim the request at the queue named by the function's own
`queue` parameter under the hard-coded `us-central1` location — the
wrapper's stored queue attribute is never consulted. Call sites in the
source always use the parameter's default, `"default"`. -/
def createCloudTask (cfg : DCTSettings) (w : CloudTaskWrapper) (queue : String) :
    Except PyErr CreatedTask := do
  let body ← getBody cfg w none none none
  Except.ok ⟨queuePath cfg.googleProjectId "us-central1" queue, body⟩

/-- Observable external actions of the scheduling core: the client call
issued by `create_cloud_task`, the opaque `.execute()` call on its result
(or on the batch request), and the two logger calls the claims mention. -/
inductive Effect where
  | createTask (parent : String) (body : PyVal)
  | opExecute
  | logIgnored (name : String) (data : Option PyVal)
  | logInfo (retryLimit retryInterval : Nat)

/-- Whether an effect contacts the remote service. -/
def Effect.isRemoteCall : Effect → Bool
  | .createTask _ _ => true
  | .opExecute => true
  | _ => false

/-- Re-raising after exhaustion: `error.args` is prefixed with the marker
string, preserving the exception's class and remaining arguments. -/
def prefixExhausted (e : PyErr) : PyErr :=
  ⟨e.kind, "Task scheduling limit exhausted" :: e.args⟩

/-- What the retry wrapper does once `attempts_left` is no longer above one:
prefix and re-raise the last captured error, or raise `AttributeError` when
no attempt was ever made (`error` still bound to `None`). -/
def exhaustedResult : Option PyErr → Except PyErr PyVal
  | none => Except.error ⟨.attributeError, ["NoneType object has no attribute args"]⟩
  | some e => Except.error (prefixExhausted e)

/-- The `while attempts_left > 1` loop of the `retry` decorator's wrapper.
`f i` is the outcome of the operation's `i`-th invocation; the result pairs
the wrapper's outcome with the number of invocations made. -/
def retryLoop (f : Nat → Except PyErr PyVal) :
    Nat → Nat → Option PyErr → Except PyErr PyVal × Nat
  | 0, i, lastErr => (exhaustedResult lastErr, i)
  | 1, i, lastErr => (exhaustedResult lastErr, i)
  | n + 2, i, lastErr =>
    match f i with
    | .ok v => (.ok v, i + 1)
    | .error e => retryLoop f (n + 1) (i + 1) (some e)

/-- Model of calling the wrapper produced by
`retry(retry_limit, retry_interval)` on a genuine zero-argument operation
whose successive invocation outcomes are given by `f`. -/
def retryCall (retryLimit : Nat) (f : Nat → Except PyErr PyVal) :
    Except PyErr PyVal × Nat :=
  retryLoop f retryLimit 0 none

/-- Result of `CloudTaskWrapper.execute` / `batch_execute`: a returned
value, Python's `None` (the blocked-remote no-op), or the *function object*
the retry decorator returns when, as in the source, it is applied to the
already-computed result of the enqueue call — the closure is returned to
the caller uninvoked, with the captured value bound as its `f`. -/
inductive Outcome where
  | value (v : PyVal)
  | pyNone
  | retryClosure (captured : PyVal)

/-- Model of `CloudTaskWrapper.execute(retry_limit, retry_interval)`.
`opResult` is the oracle outcome of the opaque `.execute()` call on the
created task. The four branches mirror the source: local execution for
non-remote wrappers in local mode; the logged no-op for blocked remote
tasks; a direct enqueue when `retry_limit` is falsy; otherwise the enqueue
expression is evaluated eagerly and its result is passed to the retry
decorator, whose inner wrapper function is returned uninvoked. -/
def executeW (cfg : DCTSettings) (w : CloudTaskWrapper)
    (runTask : PyVal → Except PyErr PyVal) (opResult : Except PyErr PyVal)
    (retryLimit retryInterval : Nat) : Except PyErr Outcome × List Effect :=
  if cfg.executeLocally && !w.isRemote then
    match executeLocal runTask cfg w with
    | .ok v => (.ok (.value v), [])
    | .error e => (.error e, [])
  else if w.isRemote && cfg.blockRemoteTasks then
    (.ok .pyNone, [.logIgnored w.internalTaskName w.data])
  else if retryLimit = 0 then
    match createCloudTask cfg w "default" with
    | .error e => (.error e, [])
    | .ok t =>
      match opResult with
      | .ok v => (.ok (.value v), [.createTask t.parent t.body, .opExecute])
      | .error e => (.error e, [.createTask t.parent t.body, .opExecute])
  else
    match createCloudTask cfg w "default" with
    | .error e => (.error e, [.logInfo retryLimit retryInterval])
    | .ok t =>
      match opResult with
      | .ok v =>
        (.ok (.retryClosure v),
         [.logInfo retryLimit retryInterval, .createTask t.parent t.body, .opExecute])
      | .error e =>
        (.error e,
         [.logInfo retryLimit retryInterval, .createTask t.parent t.body, .opExecute])

/-- The local-mode loop of `batch_execute`: non-remote tasks are executed
locally (a raise aborts the iteration and propagates), remote tasks are
logged and skipped when remote tasks are blocked, and otherwise fall
through without any action; the loop returns `None`. -/
def batchLocalLoop (cfg : DCTSettings) (runTask : PyVal → Except PyErr PyVal) :
    List CloudTaskWrapper → Except PyErr Outcome × List Effect
  | [] => (.ok .pyNone, [])
  | t :: rest =>
    if !t.isRemote then
      match executeLocal runTask cfg t with
      | .error e => (.error e, [])
      | .ok _ => batchLocalLoop cfg runTask rest
    else if t.isRemote && cfg.blockRemoteTasks then
      let r := batchLocalLoop cfg runTask rest
      (r.1, .logIgnored t.internalTaskName t.data :: r.2)
    else
      batchLocalLoop cfg runTask rest

/-- The remote loop of `batch_execute`: `batch.add(t.create_cloud_task(), …)`
invokes `create_cloud_task` — and hence the client call — for every task
while assembling the batch. -/
def batchAddAll (cfg : DCTSettings) :
    List CloudTaskWrapper → Except PyErr Unit × List Effect
  | [] => (.ok (), [])
  | t :: rest =>
    match createCloudTask cfg t "default" with
    | .error e => (.error e, [])
    | .ok ct =>
      let r := batchAddAll cfg rest
      (r.1, .createTask ct.parent ct.body :: r.2)

/-- The fatal batch-size error raised at the top of `batch_execute`. -/
def batchSizeError : PyErr :=
  ⟨.exception, ["Maximum number of tasks in batch cannot exceed 1000"]⟩

/-- Model of `batch_execute(tasks, retry_limit, retry_interval)`. The size
ceiling is checked first; in local mode the local loop runs; otherwise the
batch is assembled and `batch.execute()` (oracle outcome `batchOpResult`)
is invoked once — directly when `retry_limit` is falsy, and otherwise
eagerly as the argument of the retry decorator, whose inner wrapper
function is returned uninvoked. -/
def batchExecuteW (cfg : DCTSettings) (runTask : PyVal → Except PyErr PyVal)
    (batchOpResult : Except PyErr PyVal) (tasks : List CloudTaskWrapper)
    (retryLimit retryInterval : Nat) : Except PyErr Outcome × List Effect :=
  if 1000 ≤ tasks.length then (.error batchSizeError, [])
  else if cfg.executeLocally then batchLocalLoop cfg runTask tasks
  else
    match batchAddAll cfg tasks with
    | (.error e, es) => (.error e, es)
    | (.ok _, es) =>
      if retryLimit = 0 then
        match batchOpResult with
        | .ok v => (.ok (.value v), es ++ [.opExecute])
        | .error e => (.error e, es ++ [.opExecute])
      else
        match batchOpResult with
        | .ok v => (.ok (.retryClosure v), es ++ [.opExecute])
        | .error e => (.error e, es ++ [.opExecute])

/-! Helper lemmas about the embedded operations, shared by the claim
theorems below. -/

/-- With no payload, no delay and no name, `get_body` deterministically
returns the inner task dict. -/
theorem getBody_none (cfg : DCTSettings) (w : CloudTaskWrapper) :
    getBody cfg w none none none = Except.ok (defaultTaskBody cfg w) := rfl

/-- `create_cloud_task` with the default queue argument always succeeds and
targets the `"default"` queue path with the payload-less body. -/
theorem createCloudTask_default (cfg : DCTSettings) (w : CloudTaskWrapper) :
    createCloudTask cfg w "default" =
      Except.ok ⟨queuePath cfg.googleProjectId "us-central1" "default",
                 defaultTaskBody cfg w⟩ := rfl

/-- `execute_local` always raises `KeyError("task")`: `get_body()` returns
the inner task dict, which has no `"task"` key, and `EmulatedTask.setup`
immediately subscripts it with `"task"`. -/
theorem executeLocal_keyError (rt : PyVal → Except PyErr PyVal)
    (cfg : DCTSettings) (w : CloudTaskWrapper) :
    executeLocal rt cfg w = Except.error ⟨.keyError, ["task"]⟩ := rfl

/-- Setting a key makes it the key's binding. -/
theorem lookupS_dictSetS_self (kvs : List (String × String)) (k v : String) :
    lookupS k (dictSetS kvs k v) = some v := by
  induction kvs with
  | nil => simp [dictSetS, lookupS]
  | cons kv rest ih =>
    by_cases h : kv.1 = k
    · simp [dictSetS, h, lookupS]
    · simp [dictSetS, h, lookupS, ih]

/-- Every entry of a dict after an assignment is the assigned pair or an
original entry. -/
theorem mem_dictSetS {kvs : List (String × String)} {k v a b : String}
    (h : (a, b) ∈ dictSetS kvs k v) : (a = k ∧ b = v) ∨ (a, b) ∈ kvs := by
  induction kvs with
  | nil =>
    simp [dictSetS] at h
    exact Or.inl h
  | cons kv rest ih =>
    by_cases hk : kv.1 = k
    · simp only [dictSetS, if_pos hk] at h
      rcases List.mem_cons.mp h with h1 | h1
      · exact Or.inl ⟨congrArg Prod.fst h1, congrArg Prod.snd h1⟩
      · exact Or.inr (List.mem_cons_of_mem _ h1)
    · simp only [dictSetS, if_neg hk] at h
      rcases List.mem_cons.mp h with h1 | h1
      · exact Or.inr (List.mem_cons.mpr (Or.inl h1))
      · rcases ih h1 with h2 | h2
        · exact Or.inl h2
        · exact Or.inr (List.mem_cons_of_mem _ h2)

/-- Assignment never removes a key that was present. -/
theorem dictSetS_keeps_key {kvs : List (String × String)} {a b k v : String}
    (h : (a, b) ∈ kvs) : ∃ c, (a, c) ∈ dictSetS kvs k v := by
  induction kvs with
  | nil => cases h
  | cons kv rest ih =>
    by_cases hk : kv.1 = k
    · rcases List.mem_cons.mp h with h1 | h1
      · have ha : a = k := (congrArg Prod.fst h1).trans hk
        refine ⟨v, ?_⟩
        simp only [dictSetS, if_pos hk]
        exact List.mem_cons.mpr (Or.inl (by rw [ha]))
      · refine ⟨b, ?_⟩
        simp only [dictSetS, if_pos hk]
        exact List.mem_cons_of_mem _ h1
    · rcases List.mem_cons.mp h with h1 | h1
      · refine ⟨b, ?_⟩
        simp only [dictSetS, if_neg hk]
        exact List.mem_cons.mpr (Or.inl h1)
      · rcases ih h1 with ⟨c, hc⟩
        refine ⟨c, ?_⟩
        simp only [dictSetS, if_neg hk]
        exact List.mem_cons_of_mem _ hc

/-- The assigned pair itself is always present after an assignment. -/
theorem mem_dictSetS_self (kvs : List (String × String)) (k v : String) :
    (k, v) ∈ dictSetS kvs k v := by
  induction kvs with
  | nil => simp [dictSetS]
  | cons kv rest ih =>
    by_cases hk : kv.1 = k
    · simp only [dictSetS, if_pos hk]
      exact List.mem_cons_self _ _
    · simp only [dictSetS, if_neg hk]
      exact List.mem_cons_of_mem _ ih

/-- Every entry produced by the header loop comes from the accumulator or is
keyed by the normalisation of some caller key. -/
theorem mem_formatLoop {l : List (String × String)} :
    ∀ {acc : List (String × String)} {a b : String}, (a, b) ∈ formatLoop acc l →
      (a, b) ∈ acc ∨ ∃ k0 v0, (k0, v0) ∈ l ∧ a = normKey k0 := by
  induction l with
  | nil =>
    intro acc a b h
    simp only [formatLoop] at h
    exact Or.inl h
  | cons kv rest ih =>
    intro acc a b h
    simp only [formatLoop] at h
    rcases ih h with h1 | ⟨k0, v0, hm, hk⟩
    · rcases mem_dictSetS h1 with ⟨ha, _⟩ | h2
      · exact Or.inr ⟨kv.1, kv.2, List.mem_cons.mpr (Or.inl rfl), ha⟩
      · exact Or.inl h2
    · exact Or.inr ⟨k0, v0, List.mem_cons_of_mem _ hm, hk⟩

/-- Keys present in the accumulator survive the header loop. -/
theorem formatLoop_keeps_key {l : List (String × String)} :
    ∀ {acc : List (String × String)} {a : String},
      (∃ c, (a, c) ∈ acc) → ∃ c, (a, c) ∈ formatLoop acc l := by
  induction l with
  | nil =>
    intro acc a h
    simpa only [formatLoop] using h
  | cons kv rest ih =>
    intro acc a h
    rcases h with ⟨c, hc⟩
    simp only [formatLoop]
    exact ih (dictSetS_keeps_key hc)

/-- Every caller header key appears, normalised, after the header loop. -/
theorem formatLoop_has_key :
    ∀ (l : List (String × String)) (k0 v0 : String), (k0, v0) ∈ l →
      ∀ acc, ∃ c, (normKey k0, c) ∈ formatLoop acc l := by
  intro l
  induction l with
  | nil => intro k0 v0 hm; cases hm
  | cons kv rest ih =>
    intro k0 v0 hm acc
    rcases List.mem_cons.mp hm with h1 | h1
    · simp only [formatLoop]
      apply formatLoop_keeps_key
      have hfst : k0 = kv.1 := congrArg Prod.fst h1
      have ha : normKey k0 = normKey kv.1 := by rw [hfst]
      exact ⟨kv.2, by rw [ha]; exact mem_dictSetS_self _ _ _⟩
    · simp only [formatLoop]
      exact ih k0 v0 h1 _

/-- The remote batch-assembly loop always succeeds and performs one client
call for every task, each aimed at the default queue. -/
theorem batchAddAll_ok (cfg : DCTSettings) (tasks : List CloudTaskWrapper) :
    batchAddAll cfg tasks =
      (Except.ok (), tasks.map fun t =>
        Effect.createTask (queuePath cfg.googleProjectId "us-central1" "default")
          (defaultTaskBody cfg t)) := by
  induction tasks with
  | nil => rfl
  | cons t rest ih => simp [batchAddAll, createCloudTask_default, ih]

/-- The local batch loop either returns `None` or propagates the
`KeyError("task")` from a local execution. -/
theorem batchLocalLoop_fst_shape (cfg : DCTSettings)
    (rt : PyVal → Except PyErr PyVal) :
    ∀ tasks, (batchLocalLoop cfg rt tasks).1 = Except.ok Outcome.pyNone
      ∨ (batchLocalLoop cfg rt tasks).1 = Except.error ⟨.keyError, ["task"]⟩ := by
  intro tasks
  induction tasks with
  | nil => exact Or.inl rfl
  | cons t rest ih =>
    cases ht : t.isRemote with
    | false =>
      right
      simp [batchLocalLoop, ht, executeLocal_keyError]
    | true =>
      cases hB : cfg.blockRemoteTasks with
      | false => simpa [batchLocalLoop, ht, hB] using ih
      | true => simpa [batchLocalLoop, ht, hB] using ih

/-- The local batch loop never contacts the remote service. -/
theorem batchLocalLoop_no_remote (cfg : DCTSettings)
    (rt : PyVal → Except PyErr PyVal) :
    ∀ tasks, (batchLocalLoop cfg rt tasks).2.countP Effect.isRemoteCall = 0 := by
  intro tasks
  induction tasks with
  | nil => rfl
  | cons t rest ih =>
    cases ht : t.isRemote with
    | false => simp [batchLocalLoop, ht, executeLocal_keyError]
    | true =>
      cases hB : cfg.blockRemoteTasks with
      | false => simpa [batchLocalLoop, ht, hB] using ih
      | true => simp [batchLocalLoop, ht, hB, List.countP_cons, Effect.isRemoteCall, ih]

/-- On an all-remote batch the local loop returns `None`, logging each task
exactly when remote tasks are blocked and doing nothing otherwise. -/
theorem batchLocalLoop_all_remote (cfg : DCTSettings)
    (rt : PyVal → Except PyErr PyVal) :
    ∀ tasks, (∀ t ∈ tasks, t.isRemote = true) →
      batchLocalLoop cfg rt tasks =
        (Except.ok Outcome.pyNone,
         if cfg.blockRemoteTasks then
           tasks.map fun t => Effect.logIgnored t.internalTaskName t.data
         else []) := by
  intro tasks
  induction tasks with
  | nil => intro _; simp [batchLocalLoop]
  | cons t rest ih =>
    intro hall
    have ht : t.isRemote = true := hall t (List.mem_cons_self _ _)
    have hrest := ih fun u hu => hall u (List.mem_cons_of_mem _ hu)
    cases hB : cfg.blockRemoteTasks with
    | false =>
      rw [hB] at hrest
      simp only [if_neg Bool.false_ne_true] at hrest
      simp [batchLocalLoop, ht, hB, hrest]
    | true =>
      rw [hB] at hrest
      simp only [if_pos rfl] at hrest
      simp [batchLocalLoop, ht, hB, hrest]

/-- A batch containing a non-remote task makes the local loop raise the
local execution's `KeyError("task")`. -/
theorem batchLocalLoop_err (cfg : DCTSettings)
    (rt : PyVal → Except PyErr PyVal) :
    ∀ tasks, (∃ t ∈ tasks, t.isRemote = false) →
      (batchLocalLoop cfg rt tasks).1 = Except.error ⟨.keyError, ["task"]⟩ := by
  intro tasks
  induction tasks with
  | nil => rintro ⟨t, ht, -⟩; cases ht
  | cons t rest ih =>
    rintro ⟨u, hu, hru⟩
    cases ht : t.isRemote with
    | false => simp [batchLocalLoop, ht, executeLocal_keyError]
    | true =>
      have h1 : u ∈ rest := by
        rcases List.mem_cons.mp hu with h | h
        · rw [h, ht] at hru; cases hru
        · exact h
      cases hB : cfg.blockRemoteTasks with
      | false =>
        simp only [batchLocalLoop, ht, hB]
        simpa using ih ⟨u, h1, hru⟩
      | true =>
        simp only [batchLocalLoop, ht, hB]
        simpa using ih ⟨u, h1, hru⟩

/-! Concrete fixtures used by the evaluation theorems and witnesses. -/

/-- A trivial worker-handler oracle. -/
def runTask0 : PyVal → Except PyErr PyVal := fun _ => Except.ok .vnull

/-- Oracle: the opaque `.execute()` call succeeds with a task handle. -/
def opOk : Except PyErr PyVal := Except.ok (.vstr "created-task")

/-- Oracle: the opaque `.execute()` call raises. -/
def opErr : Except PyErr PyVal := Except.error ⟨.exception, ["boom"]⟩

/-- Settings for remote operation: local execution off, remote tasks not
blocked. -/
def cfgRemote : DCTSettings :=
  ⟨false, false, "sec", "svc@p.example", "projects/p/locations/us-central1", "p"⟩

/-- Settings with local execution on and remote tasks blocked. -/
def cfgLocalBlocked : DCTSettings :=
  ⟨true, true, "sec", "svc@p.example", "projects/p/locations/us-central1", "p"⟩

/-- Settings with local execution on and remote tasks not blocked. -/
def cfgLocalOpen : DCTSettings :=
  ⟨true, false, "sec", "svc@p.example", "projects/p/locations/us-central1", "p"⟩

/-- A remote-marked wrapper bound to payload mapping `a ↦ 1`. -/
def wRemote : CloudTaskWrapper :=
  ⟨"app.tasks.notify", "my-queue", some (.vdict [("a", .vint 1)]),
   "https://worker.example/api/_tasks/", "sec", true, []⟩

/-- A non-remote wrapper bound to payload mapping `a ↦ 1`. -/
def wLocal : CloudTaskWrapper :=
  ⟨"app.tasks.notify", "my-queue", some (.vdict [("a", .vint 1)]),
   "https://worker.example/api/_tasks/", "sec", false, []⟩

/-- A wrapper carrying caller headers, one of which collides with the
secret header name. -/
def wHdr : CloudTaskWrapper :=
  ⟨"app.tasks.notify", "q", none, "https://worker.example/api/_tasks/",
   "sec", true, [("foo_bar", "x"), (HANDLER_SECRET_HEADER_NAME, "evil")]⟩

/-- The payload mapping `a ↦ 1`. -/
def payloadA : PyVal := .vdict [("a", .vint 1)]

/-- An operation that fails on every invocation. -/
def alwaysFail : Nat → Except PyErr PyVal :=
  fun _ => Except.error ⟨.exception, ["boom"]⟩

/-! Claim theorems. -/

/-- C1: the claim says the wrapper produced by `retry(retry_limit,
retry_interval)` invokes an always-failing operation exactly `retry_limit`
times and then re-raises the last error prefixed with the exhaustion
marker. The loop guard `while attempts_left > 1` makes the code invoke the
operation only `retry_limit - 1` times: at the failing input
`retry_limit = 3` the operation runs twice, and at `retry_limit = 1` it
never runs at all and the epilogue raises `AttributeError` on `None`
instead of a prefixed error. -/
theorem retry_count_off_by_one :
    retryCall 3 alwaysFail =
      (Except.error ⟨.exception, ["Task scheduling limit exhausted", "boom"]⟩, 2)
    ∧ retryCall 1 alwaysFail =
      (Except.error ⟨.attributeError, ["NoneType object has no attribute args"]⟩, 0) :=
  ⟨rfl, rfl⟩

/-- C2: the claim says `execute` with a truthy `retry_limit` wraps the
enqueue as a deferred, repeatable action and returns the enqueue call's
result. Evaluating the code on a remote wrapper shows the opposite: the
enqueue expression `self.create_cloud_task().execute()` is evaluated once,
eagerly, and `execute` returns the retry decorator's inner wrapper function
uninvoked (with the pre-computed result captured); the number of remote
calls performed is one regardless of the retry limit. -/
theorem execute_wraps_precomputed_result :
    executeW cfgRemote wRemote runTask0 opOk 10 5 =
      (Except.ok (.retryClosure (.vstr "created-task")),
       [.logInfo 10 5,
        .createTask (queuePath "p" "us-central1" "default")
          (defaultTaskBody cfgRemote wRemote),
        .opExecute])
    ∧ (executeW cfgRemote wRemote runTask0 opOk 1000 5).2.countP Effect.isRemoteCall
        = (executeW cfgRemote wRemote runTask0 opOk 10 5).2.countP Effect.isRemoteCall :=
  ⟨rfl, rfl⟩

/-- C3: the claim says the payload round-trips through body construction
and the emulated decode, so `execute_local` delivers the payload. At the
failing input (payload `a ↦ 1`): `execute_local` raises `KeyError("task")`
before any decoding; and even the constructed body with the payload embeds
the JSON string as raw bytes — never base64 — so the emulated path's
`base64.b64decode` of it fails rather than reproducing the payload. -/
theorem local_roundtrip_broken :
    executeLocal runTask0 cfgLocalOpen wLocal = Except.error ⟨.keyError, ["task"]⟩
    ∧ jsonDumps payloadA = Except.ok "\x7b\"a\": 1\x7d"
    ∧ b64decode "\x7b\"a\": 1\x7d" = none
    ∧ getBody cfgLocalOpen wLocal (some payloadA) none none =
        Except.ok (.vdict [("http_request", .vdict
          [("http_method", .vhttpPost),
           ("url", .vstr "https://worker.example/api/_tasks/"),
           ("oidc_token", .vdict [("service_account_email", .vstr "svc@p.example")]),
           ("headers", .vdict [("Content-type", .vstr "application/json")]),
           ("body", .vbytes "\x7b\"a\": 1\x7d")])]) :=
  ⟨rfl, rfl, rfl, rfl⟩

/-- C9: for every wrapper, `execute_local()` fails with a missing-key error
before the task body runs: `get_body()` returns only the inner task dict —
which has no `"task"` key and no `"body"` entry under `"http_request"` —
while `EmulatedTask.setup` unconditionally subscripts `body["task"]`; the
local path therefore never completes, for any worker-handler oracle. -/
theorem execute_local_always_fails :
    ∀ (cfg : DCTSettings) (w : CloudTaskWrapper) (rt : PyVal → Except PyErr PyVal),
    getBody cfg w none none none = Except.ok (defaultTaskBody cfg w)
    ∧ pyGet (defaultTaskBody cfg w) "task" = Except.error ⟨.keyError, ["task"]⟩
    ∧ Except.bind (pyGet (defaultTaskBody cfg w) "http_request")
        (fun h => pyGet h "body") = Except.error ⟨.keyError, ["body"]⟩
    ∧ executeLocal rt cfg w = Except.error ⟨.keyError, ["task"]⟩ :=
  fun _ _ _ => ⟨rfl, rfl, rfl, rfl⟩

/-- C10: the remote dispatch path ignores the wrapper's stored queue:
`execute` behaves identically after any `set_queue`, and `create_cloud_task`
(called with its default argument at every call site) always targets the
fully qualified path of the queue named `"default"`. -/
theorem create_cloud_task_default_queue :
    ∀ (cfg : DCTSettings) (w : CloudTaskWrapper) (q : String)
      (rt : PyVal → Except PyErr PyVal) (opR : Except PyErr PyVal) (rl ri : Nat),
    executeW cfg (setQueue w q) rt opR rl ri = executeW cfg w rt opR rl ri
    ∧ createCloudTask cfg (setQueue w q) "default" =
        Except.ok ⟨queuePath cfg.googleProjectId "us-central1" "default",
                   defaultTaskBody cfg w⟩ := by
  intro cfg w q rt opR rl ri
  cases w
  exact ⟨rfl, rfl⟩

/-- C4: `formatted_headers` binds the fixed secret header name to the
wrapper's handler secret — set last, so it overrides any caller entry under
that name — and every other entry's key is the normalisation (underscore to
hyphen, uppercased) of some caller-supplied key; every caller key appears
normalised in the result, and the normalisation acts as specified on the
example `foo_bar`. -/
theorem formatted_headers_ok (w : CloudTaskWrapper) :
    lookupS HANDLER_SECRET_HEADER_NAME (formattedHeaders w) = some w.handlerSecret
    ∧ (∀ a b, (a, b) ∈ formattedHeaders w →
        a = HANDLER_SECRET_HEADER_NAME ∨ ∃ k0 v0, (k0, v0) ∈ w.headers ∧ a = normKey k0)
    ∧ (∀ k0 v0, (k0, v0) ∈ w.headers → ∃ c, (normKey k0, c) ∈ formattedHeaders w)
    ∧ normKey "foo_bar" = "FOO-BAR" := by
  refine ⟨lookupS_dictSetS_self _ _ _, ?_, ?_, by decide⟩
  · intro a b h
    rcases mem_dictSetS h with ⟨ha, -⟩ | h2
    · exact Or.inl ha
    · rcases mem_formatLoop h2 with h3 | ⟨k0, v0, hm, hk⟩
      · cases h3
      · exact Or.inr ⟨k0, v0, hm, hk⟩
  · intro k0 v0 hm
    rcases formatLoop_has_key w.headers k0 v0 hm [] with ⟨c, hc⟩
    exact dictSetS_keeps_key hc

/-- C4 witness: on a wrapper whose caller headers contain `foo_bar ↦ x` and
an entry under the secret header name itself, the secret header resolves to
the configured secret, not the caller's value. -/
theorem formatted_headers_ok_witness :
    lookupS HANDLER_SECRET_HEADER_NAME (formattedHeaders wHdr) = some "sec"
    ∧ normKey "foo_bar" = "FOO-BAR" := by
  have h := formatted_headers_ok wHdr
  exact ⟨h.1, h.2.2.2⟩

/-- C5: `batch_execute` raises the fatal batch-size error, with an empty
effect trace — before any body construction or network call — exactly on
batches of 1000 or more tasks; on 999 or fewer the immediate size failure
never occurs, whatever the mode, oracles and retry parameters. -/
theorem batch_size_limit :
    ∀ (cfg : DCTSettings) (rt : PyVal → Except PyErr PyVal)
      (bOp : Except PyErr PyVal) (tasks : List CloudTaskWrapper) (rl ri : Nat),
    (1000 ≤ tasks.length →
      batchExecuteW cfg rt bOp tasks rl ri = (Except.error batchSizeError, []))
    ∧ (tasks.length ≤ 999 →
      batchExecuteW cfg rt bOp tasks rl ri ≠ (Except.error batchSizeError, [])) := by
  intro cfg rt bOp tasks rl ri
  constructor
  · intro h
    simp [batchExecuteW, h]
  · intro hlen heq
    have hsize : ¬ (1000 ≤ tasks.length) := by omega
    by_cases hL : cfg.executeLocally
    · simp only [batchExecuteW, if_neg hsize, if_pos hL] at heq
      rcases batchLocalLoop_fst_shape cfg rt tasks with hs | hs <;>
        rw [heq] at hs <;> simp [batchSizeError] at hs
    · cases bOp <;> by_cases hrl : rl = 0 <;>
        simp [batchExecuteW, hsize, hL, batchAddAll_ok, hrl] at heq

/-- C5 witness: a batch of exactly 1000 wrappers fails immediately with the
size error and an empty trace, and a batch of 999 does not produce that
immediate failure. -/
theorem batch_size_limit_witness :
    batchExecuteW cfgRemote runTask0 opOk (List.replicate 1000 wRemote) 10 3 =
      (Except.error batchSizeError, [])
    ∧ batchExecuteW cfgRemote runTask0 opOk (List.replicate 999 wRemote) 10 3 ≠
      (Except.error batchSizeError, []) := by
  have h1 := (batch_size_limit cfgRemote runTask0 opOk (List.replicate 1000 wRemote) 10 3).1
  have h2 := (batch_size_limit cfgRemote runTask0 opOk (List.replicate 999 wRemote) 10 3).2
  exact ⟨h1 (by simp), h2 (by simp)⟩

/-- C6: `execute()` yields the logged no-op — result `None` with only the
debug-log effect and no remote contact — exactly when the wrapper is marked
remote and the global block-remote-tasks flag is on; in every other
configuration the call either performs its action or propagates an error,
so this is the only silently swallowed case. -/
theorem execute_blocked_iff :
    ∀ (cfg : DCTSettings) (w : CloudTaskWrapper) (rt : PyVal → Except PyErr PyVal)
      (opR : Except PyErr PyVal) (rl ri : Nat),
    executeW cfg w rt opR rl ri =
        (Except.ok Outcome.pyNone, [Effect.logIgnored w.internalTaskName w.data])
      ↔ (w.isRemote = true ∧ cfg.blockRemoteTasks = true) := by
  intro cfg w rt opR rl ri
  constructor
  · intro h
    cases hR : w.isRemote with
    | true =>
      cases hB : cfg.blockRemoteTasks with
      | true => exact ⟨rfl, rfl⟩
      | false =>
        exfalso
        by_cases hrl : rl = 0 <;> cases opR <;>
          simp [executeW, hR, hB, hrl, createCloudTask_default] at h
    | false =>
      exfalso
      cases hL : cfg.executeLocally with
      | true =>
        simp [executeW, hR, hL, executeLocal_keyError] at h
      | false =>
        by_cases hrl : rl = 0 <;> cases opR <;>
          simp [executeW, hR, hL, hrl, createCloudTask_default] at h
  · rintro ⟨hR, hB⟩
    simp [executeW, hR, hB]

/-- C7 counterexample: the claim says that in local mode a remote-marked
task is enqueued individually to the remote service when block-remote-tasks
is not active. On a batch holding one remote wrapper with blocking off, the
local loop performs no action at all — no remote call appears in the trace
and the task is dropped without even a log. -/
theorem batch_local_remote_dropped_cex :
    batchExecuteW cfgLocalOpen runTask0 opOk [wRemote] 10 3 =
      (Except.ok Outcome.pyNone, [])
    ∧ (batchExecuteW cfgLocalOpen runTask0 opOk [wRemote] 10 3).2.countP
        Effect.isRemoteCall = 0 :=
  ⟨rfl, rfl⟩

/-- C7 (amended): in local/emulated global mode `batch_execute` iterates
the batch in order, never contacting the remote service: remote-marked
tasks are skipped — logged when block-remote-tasks is active, silently
otherwise — and each non-remote task is run locally, whose unconditional
failure aborts the iteration with `KeyError("task")`; a batch of only
remote tasks returns `None`. -/
theorem batch_local_dispatch_amended :
    ∀ (cfg : DCTSettings) (rt : PyVal → Except PyErr PyVal)
      (bOp : Except PyErr PyVal) (tasks : List CloudTaskWrapper) (rl ri : Nat),
    cfg.executeLocally = true → tasks.length ≤ 999 →
    ((batchExecuteW cfg rt bOp tasks rl ri).2.countP Effect.isRemoteCall = 0)
    ∧ ((∀ t ∈ tasks, t.isRemote = true) →
        batchExecuteW cfg rt bOp tasks rl ri =
          (Except.ok Outcome.pyNone,
           if cfg.blockRemoteTasks then
             tasks.map fun t => Effect.logIgnored t.internalTaskName t.data
           else []))
    ∧ ((∃ t ∈ tasks, t.isRemote = false) →
        (batchExecuteW cfg rt bOp tasks rl ri).1 = Except.error ⟨.keyError, ["task"]⟩) := by
  intro cfg rt bOp tasks rl ri hL hlen
  have hsize : ¬ (1000 ≤ tasks.length) := by omega
  have hred : batchExecuteW cfg rt bOp tasks rl ri = batchLocalLoop cfg rt tasks := by
    simp [batchExecuteW, hsize, hL]
  rw [hred]
  exact ⟨batchLocalLoop_no_remote cfg rt tasks,
         batchLocalLoop_all_remote cfg rt tasks,
         batchLocalLoop_err cfg rt tasks⟩

/-- C7 witness for the amended claim: one remote task under local mode with
blocking active is logged and skipped, with no remote call. -/
theorem batch_local_dispatch_amended_witness :
    batchExecuteW cfgLocalBlocked runTask0 opOk [wRemote] 10 3 =
      (Except.ok Outcome.pyNone,
       [Effect.logIgnored wRemote.internalTaskName wRemote.data]) := by
  have h := (batch_local_dispatch_amended cfgLocalBlocked runTask0 opOk [wRemote] 10 3
    rfl (by decide)).2.1 (by intro t ht; rw [List.mem_singleton.mp ht]; rfl)
  simpa [cfgLocalBlocked] using h

/-- C8: with a falsy `retry_limit` (zero), both `execute` and
`batch_execute` take the direct path: the enqueue (or batch) operation is
invoked exactly once, its result is returned as-is, and an error outcome
propagates unmodified — no retry machinery, no sleep, no prefixed
message. -/
theorem direct_path_once :
    ∀ (cfg : DCTSettings) (w : CloudTaskWrapper) (rt : PyVal → Except PyErr PyVal)
      (opR bOp : Except PyErr PyVal) (tasks : List CloudTaskWrapper) (ri : Nat),
    ((cfg.executeLocally && !w.isRemote) = false →
      (w.isRemote && cfg.blockRemoteTasks) = false →
      executeW cfg w rt opR 0 ri =
        (opR.map Outcome.value,
         [Effect.createTask (queuePath cfg.googleProjectId "us-central1" "default")
            (defaultTaskBody cfg w),
          Effect.opExecute]))
    ∧ (cfg.executeLocally = false → tasks.length ≤ 999 →
      batchExecuteW cfg rt bOp tasks 0 ri =
        (bOp.map Outcome.value,
         (tasks.map fun t =>
            Effect.createTask (queuePath cfg.googleProjectId "us-central1" "default")
              (defaultTaskBody cfg t))
           ++ [Effect.opExecute])) := by
  intro cfg w rt opR bOp tasks ri
  constructor
  · intro h1 h2
    cases opR <;> simp [executeW, h1, h2, createCloudTask_default, Except.map]
  · intro hL hlen
    have hsize : ¬ (1000 ≤ tasks.length) := by omega
    cases bOp <;> simp [batchExecuteW, hL, hsize, batchAddAll_ok, Except.map]

/-- C8 witness: at retry limit zero on a remote wrapper whose enqueue call
raises, both paths invoke the operation once and propagate the raised error
unmodified. -/
theorem direct_path_once_witness :
    executeW cfgRemote wRemote runTask0 opErr 0 5 =
      (opErr.map Outcome.value,
       [Effect.createTask (queuePath "p" "us-central1" "default")
          (defaultTaskBody cfgRemote wRemote),
        Effect.opExecute])
    ∧ batchExecuteW cfgRemote runTask0 opErr [wRemote] 0 5 =
      (opErr.map Outcome.value,
       [Effect.createTask (queuePath "p" "us-central1" "default")
          (defaultTaskBody cfgRemote wRemote),
        Effect.opExecute]) := by
  have h := direct_path_once cfgRemote wRemote runTask0 opErr opErr [wRemote] 5
  exact ⟨h.1 rfl rfl, by simpa using h.2 rfl (by decide)⟩
